import Mathlib

/-!
# Verification of the therapist-connect call backend

Shallow embedding of the call-session coordinator of the
`therapist-connect-backend` repository: the billing helpers
(`calculateCallCost` in `routes/call.js` and the instance method
`calculateCost` in `models/CallLog.js`), the call lifecycle routes
(`/initiate`, `/answer/:callId`, `/reject/:callId`, `/cancel/:callId`,
`/end/:callId` and the 30-second ring timeout), the socket presence maps
of `server.js`, and the WebRTC relay of the signaling server
(`services/signalingServer.js`).

Every monetary amount stored or mutated by this code is an integer
number of coins: the only non-integer constants are the therapist
per-minute rates 2.5 (voice) and 4 (video) and the clamping share 0.5,
and each occurs exclusively inside `Math.floor` of a product with an
integer.  For a natural number `m`, `Math.floor(m * 2.5)` is exactly
`m * 5 / 2` in integer floor division and `Math.floor(c * 0.5)` is
exactly `c / 2`, so the embedding stores the therapist rates doubled
("half-coins per minute": 5 for voice, 8 for video) and works entirely
in `ℕ`, which the kernel can evaluate.
-/

namespace TherapistConnect

/-- Call statuses, from the `status` enum of `models/CallLog.js`. -/
inductive Status where
  | initiated
  | answered
  | ended_by_user
  | ended_by_therapist
  | rejected
  | missed
  | cancelled_by_user
  | cancelled_by_therapist
  | busy
  | offline
deriving DecidableEq, Repr

/-- The string stored in Mongo for each `Status` value. -/
def Status.str : Status → String
  | .initiated => "initiated"
  | .answered => "answered"
  | .ended_by_user => "ended_by_user"
  | .ended_by_therapist => "ended_by_therapist"
  | .rejected => "rejected"
  | .missed => "missed"
  | .cancelled_by_user => "cancelled_by_user"
  | .cancelled_by_therapist => "cancelled_by_therapist"
  | .busy => "busy"
  | .offline => "offline"

/-- Does `needle` occur at the head of `hay`? (helper for JavaScript
`String.prototype.includes`). -/
def matchHere : List Char → List Char → Bool
  | [], _ => true
  | _ :: _, [] => false
  | a :: as, b :: bs => a = b && matchHere as bs

/-- Does `needle` occur anywhere in `hay`? -/
def containsSeq (needle : List Char) : List Char → Bool
  | [] => needle.isEmpty
  | c :: rest => matchHere needle (c :: rest) || containsSeq needle rest

/-- JavaScript `s.includes(t)`: substring containment. -/
def strContains (s t : String) : Bool := containsSeq t.toList s.toList

/-- `callLog.status.includes("ended")` from the `/end/:callId` route of
`routes/call.js`: true exactly for `ended_by_user` and
`ended_by_therapist`. -/
def Status.includesEnded (s : Status) : Bool := strContains s.str "ended"

/-- Pricing entry of `CALL_PRICING` in `routes/call.js`.  The field
`therapistEarningsPerMinuteHalfCoins` stores the JS rate
`therapistEarningsPerMinute` doubled (2.5 coins/min ↦ 5, 4 coins/min ↦ 8)
so that `Math.floor(m * therapistEarningsPerMinute)` is the integer
`m * therapistEarningsPerMinuteHalfCoins / 2`. -/
structure Pricing where
  costPerMinute : ℕ
  therapistEarningsPerMinuteHalfCoins : ℕ
  minimumMinutes : ℕ
deriving DecidableEq, Repr

/-- `CALL_PRICING[CALL_TYPES.VOICE]`: 5 coins/min cost, 2.5 coins/min
therapist earnings. -/
def voicePricing : Pricing :=
  { costPerMinute := 5, therapistEarningsPerMinuteHalfCoins := 5, minimumMinutes := 1 }

/-- `CALL_PRICING[CALL_TYPES.VIDEO]`: 8 coins/min cost, 4 coins/min
therapist earnings. -/
def videoPricing : Pricing :=
  { costPerMinute := 8, therapistEarningsPerMinuteHalfCoins := 8, minimumMinutes := 1 }

/-- `CALL_PRICING[callType] || CALL_PRICING[CALL_TYPES.VOICE]`:
property lookup with fallback to voice for unrecognized call types. -/
def pricingFor (callType : String) : Pricing :=
  if callType = "voice" then voicePricing
  else if callType = "video" then videoPricing
  else voicePricing

/-- The triple returned by both cost calculators. -/
structure CostData where
  durationMinutes : ℕ
  costInCoins : ℕ
  therapistEarningsCoins : ℕ
deriving DecidableEq, Repr

/-- `Math.ceil(duration / 60)` for a non-negative integer `duration`. -/
def ceilDiv60 (duration : ℕ) : ℕ := (duration + 59) / 60

/-- `calculateCallCost` from `routes/call.js` (lines 31–42):
`durationMinutes = Math.max(1, Math.ceil(duration / 60))`,
`costInCoins = durationMinutes * pricing.costPerMinute`,
`therapistEarningsCoins =
   Math.floor(durationMinutes * pricing.therapistEarningsPerMinute)`
(the floor of `m * 2.5` is `m * 5 / 2`; the floor of `m * 4` is `m * 8 / 2`). -/
def calculateCallCost (duration : ℕ) (callType : String) : CostData :=
  let durationMinutes := max 1 (ceilDiv60 duration)
  let pricing := pricingFor callType
  { durationMinutes := durationMinutes
    costInCoins := durationMinutes * pricing.costPerMinute
    therapistEarningsCoins :=
      durationMinutes * pricing.therapistEarningsPerMinuteHalfCoins / 2 }

namespace CallLogModel

/-- Pricing entry of the local `CALL_PRICING` inside
`callLogSchema.methods.calculateCost` in `models/CallLog.js` (it has no
`minimumMinutes` field).  As above, the therapist rate is stored doubled. -/
structure MPricing where
  costPerMinute : ℕ
  therapistEarningsPerMinuteHalfCoins : ℕ
deriving DecidableEq, Repr

/-- `CALL_PRICING.voice` of `models/CallLog.js`. -/
def mVoice : MPricing := { costPerMinute := 5, therapistEarningsPerMinuteHalfCoins := 5 }

/-- `CALL_PRICING.video` of `models/CallLog.js`. -/
def mVideo : MPricing := { costPerMinute := 8, therapistEarningsPerMinuteHalfCoins := 8 }

/-- `CALL_PRICING[callType] || CALL_PRICING.voice` of the instance method. -/
def mPricingFor (callType : String) : MPricing :=
  if callType = "voice" then mVoice
  else if callType = "video" then mVideo
  else mVoice

/-- `callLogSchema.methods.calculateCost` from `models/CallLog.js`
(lines 287–303). -/
def calculateCost (durationSeconds : ℕ) (callType : String) : CostData :=
  let pricing := mPricingFor callType
  let durationMinutes := max 1 (ceilDiv60 durationSeconds)
  { durationMinutes := durationMinutes
    costInCoins := durationMinutes * pricing.costPerMinute
    therapistEarningsCoins :=
      durationMinutes * pricing.therapistEarningsPerMinuteHalfCoins / 2 }

end CallLogModel

/-- The fields of a `CallLog` document touched by the lifecycle routes.
Timestamps are milliseconds since epoch.  `wasCharged` is
`billing.wasCharged` (schema default `false`; no route ever sets it). -/
structure CallRec where
  userId : ℕ
  therapistId : ℕ
  callType : String
  status : Status
  startTime : ℕ
  actualStartTime : Option ℕ
  endTime : Option ℕ
  actualDuration : ℕ
  durationMinutes : ℕ
  costInCoins : ℕ
  therapistEarningsCoins : ℕ
  wasCharged : Bool
deriving DecidableEq, Repr

/-- The document created by `new CallLog({...})` in the `/initiate` route
(`status: "initiated"`, `startTime: new Date()`) together with the schema
defaults of `models/CallLog.js` for every other modelled field. -/
def initiateRecord (userId therapistId : ℕ) (callType : String) (now : ℕ) : CallRec :=
  { userId := userId
    therapistId := therapistId
    callType := callType
    status := .initiated
    startTime := now
    actualStartTime := none
    endTime := none
    actualDuration := 0
    durationMinutes := 0
    costInCoins := 0
    therapistEarningsCoins := 0
    wasCharged := false }

/-- The two authenticated roles (`auth("user")` / `auth("therapist")`). -/
inductive Role where
  | user
  | therapist
deriving DecidableEq, Repr

/-- `endedBy === "user" ? "ended_by_user" : "ended_by_therapist"` from the
`/end/:callId` route. -/
def endedStatus : Role → Status
  | .user => .ended_by_user
  | .therapist => .ended_by_therapist

/-- Errors of the `/answer/:callId` route (after the callId-format and
call-not-found checks, which do not touch any call state). -/
inductive AnswerErr where
  | unauthorized
  | cannotAnswer (currentStatus : Status)
  | therapistUnavailable
deriving DecidableEq, Repr

/-- The `/answer/:callId` route of `routes/call.js` (lines 239–312):
403 if the requester is not the call's therapist, 400 carrying the
current status if the call is not `initiated`, 400 if the therapist is
no longer available (`isAvailable` is the requesting therapist's
availability flag), otherwise the call becomes `answered` with
`actualStartTime: new Date()`. -/
def answerCall (c : CallRec) (therapistId : ℕ) (isAvailable : Bool) (now : ℕ) :
    Except AnswerErr CallRec :=
  if c.therapistId ≠ therapistId then .error .unauthorized
  else if c.status ≠ .initiated then .error (.cannotAnswer c.status)
  else if !isAvailable then .error .therapistUnavailable
  else .ok { c with status := .answered, actualStartTime := some now }

/-- Errors of the `/reject/:callId` route. -/
inductive RejectErr where
  | unauthorized
  | cannotReject (currentStatus : Status)
deriving DecidableEq, Repr

/-- The `/reject/:callId` route of `routes/call.js` (lines 315–362). -/
def rejectCall (c : CallRec) (therapistId : ℕ) (now : ℕ) :
    Except RejectErr CallRec :=
  if c.therapistId ≠ therapistId then .error .unauthorized
  else if c.status ≠ .initiated then .error (.cannotReject c.status)
  else .ok { c with status := .rejected, endTime := some now }

/-- Errors of the `/cancel/:callId` route. -/
inductive CancelErr where
  | unauthorized
  | cannotCancel (currentStatus : Status)
deriving DecidableEq, Repr

/-- The `/cancel/:callId` route of `routes/call.js` (lines 365–410):
only the call's user may cancel, and only from `initiated` or
`answered` (`["initiated", "answered"].includes(callLog.status)`). -/
def cancelCall (c : CallRec) (userId : ℕ) (now : ℕ) :
    Except CancelErr CallRec :=
  if c.userId ≠ userId then .error .unauthorized
  else if !(c.status = .initiated || c.status = .answered) then
    .error (.cannotCancel c.status)
  else .ok { c with status := .cancelled_by_user, endTime := some now }

/-- The balances mutated by settlement: the paying user's `coinBalance`
and the therapist's `totalEarningsCoins`. -/
structure Accounts where
  coinBalance : ℕ
  totalEarningsCoins : ℕ
deriving DecidableEq, Repr

/-- The double-processing guard of the `/end/:callId` route:
`callLog.status.includes("ended") || callLog.status === "cancelled_by_user"`. -/
def alreadyProcessed (s : Status) : Bool :=
  s.includesEnded || s = .cancelled_by_user

/-- The cost-triple computation of the `/end/:callId` route
(`routes/call.js` lines 495–522).  `actualDuration` is the duration in
seconds after the route's normalization
`Math.max(0, parseInt(actualDuration) || 0)`.  A cost is computed only
when `callLog.status === "answered" && actualDuration > 0`
(`shouldCharge`); if the computed cost exceeds the user's balance the
cost is clamped (`Math.min(cost, coinBalance)`) and earnings recomputed
as `Math.floor(clampedCost * 0.5)` (= `clampedCost / 2`). -/
def settleCost (c : CallRec) (acc : Accounts) (actualDuration : ℕ) : CostData :=
  if c.status = .answered ∧ 0 < actualDuration then
    let cd := calculateCallCost actualDuration c.callType
    if acc.coinBalance < cd.costInCoins then
      let clamped := min cd.costInCoins acc.coinBalance
      { cd with costInCoins := clamped, therapistEarningsCoins := clamped / 2 }
    else cd
  else { durationMinutes := 0, costInCoins := 0, therapistEarningsCoins := 0 }

/-- The `/end/:callId` route of `routes/call.js` (lines 413–664), from
the double-processing guard onward (the earlier callId/`endedBy`
validations and the participant authorization return errors without
touching any state).  If the call is already processed
(`status.includes("ended") || status === "cancelled_by_user"`) the
stored record and balances are returned unchanged; otherwise the call
log is updated to `ended_by_user`/`ended_by_therapist` with the
`settleCost` triple, and the balances are mutated (`$inc`) only when the
final cost is positive. -/
def endCall (c : CallRec) (acc : Accounts) (endedBy : Role)
    (actualDuration : ℕ) (now : ℕ) : CallRec × Accounts :=
  if alreadyProcessed c.status then (c, acc)
  else
    let costData := settleCost c acc actualDuration
    let c' := { c with
      endTime := some now
      actualDuration := actualDuration
      durationMinutes := costData.durationMinutes
      costInCoins := costData.costInCoins
      therapistEarningsCoins := costData.therapistEarningsCoins
      status := endedStatus endedBy }
    let acc' :=
      if 0 < costData.costInCoins then
        { coinBalance := acc.coinBalance - costData.costInCoins
          totalEarningsCoins := acc.totalEarningsCoins + costData.therapistEarningsCoins }
      else acc
    (c', acc')

/-- The ring-timeout interval: `setTimeout(..., 30000)` in the
`/initiate` route of `routes/call.js` and in `handleCallInitiation` of
`server.js`. -/
def ringTimeoutMs : ℕ := 30000

/-- The body of the `/initiate` route's timeout callback
(`routes/call.js` lines 152–170): if the call is still `initiated` when
the timer fires it is updated to `status: "missed"` with
`endTime: new Date()`; otherwise nothing is written. -/
def ringTimeoutFire (c : CallRec) (now : ℕ) : CallRec :=
  if c.status = .initiated then { c with status := .missed, endTime := some now }
  else c

/-! ## Session-store model for the single-active-session invariant

The authoritative session store is the `CallLog` collection; the fields
relevant to the active-session queries of the `/initiate` route are the
session id and the two participant ids together with the status.  A user
identity only ever occurs in the `userId` field (callers) and a
therapist identity only in `therapistId` (callees): the two id spaces
are distinct Mongo collections. -/

/-- A stored session, projected to the fields the active-session
queries read. -/
structure Sess where
  id : ℕ
  userId : ℕ
  therapistId : ℕ
  status : Status
deriving DecidableEq, Repr

/-- `status: { $in: ["initiated", "answered"] }`. -/
def isActiveStatus (s : Status) : Bool := s = .initiated || s = .answered

/-- The session store (the set of `CallLog` documents). -/
abbrev Store := List Sess

/-- Predicate of `CallLog.findOne({ userId, status: { $in: [...] } })`. -/
def activeForUser (u : ℕ) (s : Sess) : Bool :=
  decide (s.userId = u) && isActiveStatus s.status

/-- Predicate of `CallLog.findOne({ therapistId, status: { $in: [...] } })`. -/
def activeForTherapist (t : ℕ) (s : Sess) : Bool :=
  decide (s.therapistId = t) && isActiveStatus s.status

/-- Whether `findOne` finds an active call for the user. -/
def hasActiveUser (st : Store) (u : ℕ) : Bool := st.any (activeForUser u)

/-- Whether `findOne` finds an active call for the therapist. -/
def hasActiveTherapist (st : Store) (t : ℕ) : Bool := st.any (activeForTherapist t)

/-- The two busy-rejections of the `/initiate` route. -/
inductive InitiateErr where
  | alreadyActive
  | therapistBusy
deriving DecidableEq, Repr

/-- The session-store effect of the `/initiate` route (lines 112–149):
400 "You already have an active call" if the user has an active call,
400 "Therapist is currently busy" if the therapist has one, otherwise a
new `initiated` session is stored.  (The earlier validations — balance,
therapist availability, call type — return errors without touching the
store and are omitted.) -/
def initiate (st : Store) (id u t : ℕ) : Except InitiateErr Store :=
  if hasActiveUser st u then .error .alreadyActive
  else if hasActiveTherapist st t then .error .therapistBusy
  else .ok ({ id := id, userId := u, therapistId := t, status := .initiated } :: st)

/-- `CallLog.findByIdAndUpdate`: apply `f` to the session with the given
id, leave every other session unchanged. -/
def updateSess (st : Store) (id : ℕ) (f : Sess → Sess) : Store :=
  st.map fun s => if s.id = id then f s else s

/-- Store effect of `/answer/:callId` on the matched session: answered
only if the requester is the call's therapist, the status is
`initiated`, and the therapist is still available. -/
def answerSess (tid : ℕ) (avail : Bool) (s : Sess) : Sess :=
  if s.therapistId = tid ∧ s.status = .initiated ∧ avail = true then
    { s with status := .answered }
  else s

/-- Store effect of `/reject/:callId` on the matched session. -/
def rejectSess (tid : ℕ) (s : Sess) : Sess :=
  if s.therapistId = tid ∧ s.status = .initiated then
    { s with status := .rejected }
  else s

/-- Store effect of `/cancel/:callId` on the matched session. -/
def cancelSess (uid : ℕ) (s : Sess) : Sess :=
  if s.userId = uid ∧ (s.status = .initiated ∨ s.status = .answered) then
    { s with status := .cancelled_by_user }
  else s

/-- Store effect of `/end/:callId` on the matched session: the
double-processing guard first (returns the cached record), then the
participant authorization, then the status is overwritten. -/
def endSess (r : Role) (requesterId : ℕ) (s : Sess) : Sess :=
  if alreadyProcessed s.status then s
  else if (match r with
           | .user => s.userId
           | .therapist => s.therapistId) = requesterId then
    { s with status := endedStatus r }
  else s

/-- Store effect of the ring-timeout callback on the matched session. -/
def timeoutSess (s : Sess) : Sess :=
  if s.status = .initiated then { s with status := .missed } else s

/-- One externally-triggered event on the session store. -/
inductive CallOp where
  | opInitiate (id u t : ℕ)
  | opAnswer (id tid : ℕ) (avail : Bool)
  | opReject (id tid : ℕ)
  | opCancel (id uid : ℕ)
  | opEnd (id : ℕ) (r : Role) (requesterId : ℕ)
  | opTimeout (id : ℕ)
deriving DecidableEq, Repr

/-- Apply one event to the store (a failed `initiate` leaves the store
unchanged, matching the 400 response). -/
def stepOp (st : Store) : CallOp → Store
  | .opInitiate id u t => ((initiate st id u t).toOption).getD st
  | .opAnswer id tid avail => updateSess st id (answerSess tid avail)
  | .opReject id tid => updateSess st id (rejectSess tid)
  | .opCancel id uid => updateSess st id (cancelSess uid)
  | .opEnd id r rid => updateSess st id (endSess r rid)
  | .opTimeout id => updateSess st id timeoutSess

/-- Run a sequence of events from the empty store. -/
def runOps (ops : List CallOp) : Store := ops.foldl stepOp []

/-- At most one active (initiated or answered) session per identity, as
caller and as callee. -/
def SingleActive (st : Store) : Prop :=
  ∀ x : ℕ, st.countP (activeForUser x) ≤ 1 ∧ st.countP (activeForTherapist x) ≤ 1

/-! ## Signaling server (`services/signalingServer.js`) -/

/-- The value stored in `userSockets` by the `register` handler. -/
structure SigUser where
  userID : String
  userType : String
  userName : String
deriving DecidableEq, Repr

/-- The value stored in `activeCalls` by the `initiate-call` handler. -/
structure SigCall where
  callerID : String
  calleeID : String
  callType : String
  callStatus : String
  startTime : ℕ
deriving DecidableEq, Repr

/-- JS `Map.set`: later registrations supersede earlier ones for the
same key; `List.lookup` then behaves like `Map.get`. -/
def mapSet {β : Type} (m : List (String × β)) (k : String) (v : β) :
    List (String × β) :=
  (k, v) :: m.filter fun p => !(p.1 == k)

/-- JS `Map.delete`. -/
def mapDelete {β : Type} (m : List (String × β)) (k : String) :
    List (String × β) :=
  m.filter fun p => !(p.1 == k)

/-- The three maps owned by `SignalingServer`. -/
structure SigState where
  connectedUsers : List (String × String)
  userSockets : List (String × SigUser)
  activeCalls : List (String × SigCall)
deriving DecidableEq, Repr

/-- The `register` handler (lines 25–42): `connectedUsers.set(userID,
socket.id)` and `userSockets.set(socket.id, {userID, userType, userName})`. -/
def sigRegister (st : SigState) (socketId : String) (info : SigUser) : SigState :=
  { st with
    connectedUsers := mapSet st.connectedUsers info.userID socketId
    userSockets := mapSet st.userSockets socketId info }

/-- The `initiate-call` handler (lines 45–79): if the callee is not
connected, only an error is emitted; otherwise the call is stored with
status `ringing`. -/
def sigInitiateCall (st : SigState) (callID callerID calleeID ct : String)
    (now : ℕ) : SigState :=
  match st.connectedUsers.lookup calleeID with
  | none => st
  | some _ =>
      { st with
        activeCalls := mapSet st.activeCalls callID
          { callerID := callerID, calleeID := calleeID, callType := ct
            callStatus := "ringing", startTime := now } }

/-- A relayed signaling message as emitted to the target socket. -/
structure RelayMsg where
  callID : String
  payload : String
  senderID : Option String
deriving DecidableEq, Repr

/-- The `webrtc-offer` handler (lines 128–139); `webrtc-answer` and
`webrtc-ice-candidate` (lines 141–165) are identical up to the payload
field name.  The target socket is resolved from `targetUserID` alone:
`connectedUsers.get(targetUserID)`; if connected, the payload is emitted
to that socket, otherwise nothing happens.  No check involves `callID`
or the membership of any call. -/
def webrtcRelay (st : SigState) (senderSocketId callID payload targetUserID : String) :
    Option (String × RelayMsg) :=
  match st.connectedUsers.lookup targetUserID with
  | some targetSocketID =>
      some (targetSocketID,
        { callID := callID, payload := payload
          senderID := (st.userSockets.lookup senderSocketId).map SigUser.userID })
  | none => none

/-- Whether `userID` is one of the two registered participants of the
session stored under `callID`. -/
def isParticipant (st : SigState) (callID userID : String) : Bool :=
  match st.activeCalls.lookup callID with
  | some call => call.callerID == userID || call.calleeID == userID
  | none => false

/-! ## Presence maps of `server.js` -/

/-- `connectedUsers.set(userId, {socketId: socket.id, ...})` from the
`user-connect` handler of `server.js` (lines 63–82); only the socket id
is modelled. -/
def userConnect (m : List (String × String)) (userId socketId : String) :
    List (String × String) :=
  mapSet m userId socketId

/-- The user-presence part of the `disconnect` handler of `server.js`
(lines 349–358): `if (socket.userType === "user" && socket.userId)
connectedUsers.delete(socket.userId)`.  The deletion is keyed by the
socket's remembered identity only; the stored socket id is never
compared with the disconnecting socket's id. -/
def disconnectUsers (m : List (String × String))
    (sockUserType sockUserId : Option String) : List (String × String) :=
  match sockUserType, sockUserId with
  | some "user", some u => mapDelete m u
  | _, _ => m

/-! ## Derived definitions and sample records used in the theorems -/

/-- The stored document after an `/answer` request is handled: an error
response writes nothing back. -/
def storedAfterAnswer (c : CallRec) (tid : ℕ) (avail : Bool) (now : ℕ) : CallRec :=
  match answerCall c tid avail now with
  | .ok c' => c'
  | .error _ => c

/-- The stored document after a `/reject` request is handled. -/
def storedAfterReject (c : CallRec) (tid : ℕ) (now : ℕ) : CallRec :=
  match rejectCall c tid now with
  | .ok c' => c'
  | .error _ => c

/-- The stored document after a `/cancel` request is handled. -/
def storedAfterCancel (c : CallRec) (uid : ℕ) (now : ℕ) : CallRec :=
  match cancelCall c uid now with
  | .ok c' => c'
  | .error _ => c

/-- The terminal statuses named by the specification (ended, rejected,
cancelled, missed — the code has no separate timed-out status; the ring
timeout stores `missed`). -/
def TerminalStatus (s : Status) : Prop :=
  s = .ended_by_user ∨ s = .ended_by_therapist ∨ s = .rejected ∨
  s = .missed ∨ s = .cancelled_by_user ∨ s = .cancelled_by_therapist

/-- A freshly initiated call: user 1 calling therapist 2, voice. -/
def sampleInitiated : CallRec := initiateRecord 1 2 "voice" 1000

/-- The same call after the therapist answered at t = 1500 ms. -/
def sampleAnswered : CallRec :=
  { sampleInitiated with status := .answered, actualStartTime := some 1500 }

/-- The same call had the therapist instead rejected it at t = 1200 ms. -/
def sampleRejected : CallRec :=
  { sampleInitiated with status := .rejected, endTime := some 1200 }

/-- A signaling-server state with three registered identities
(`a` on socket `s1`, `b` on `s2`, `x` on `s3`) and one ringing call
`call1` between `a` and `b`. -/
def sigSample : SigState :=
  sigInitiateCall
    (sigRegister
      (sigRegister
        (sigRegister ⟨[], [], []⟩ "s1" ⟨"a", "user", "Alice"⟩)
        "s2" ⟨"b", "therapist", "Bob"⟩)
      "s3" ⟨"x", "user", "Mallory"⟩)
    "call1" "a" "b" "voice" 1000

/-- A store holding one answered session (user 10 with therapist 20). -/
def demoStore : Store :=
  [{ id := 1, userId := 10, therapistId := 20, status := .answered }]

/-! ## Theorems -/

example : answerCall sampleInitiated 2 true 1500 = .ok sampleAnswered := rfl

example : rejectCall sampleInitiated 2 1200 = .ok sampleRejected := rfl

/-- C9: the two cost calculators agree on every duration and call type
(including unrecognized call types, which both default to voice pricing). -/
theorem c9_cost_calculators_agree (duration : ℕ) (callType : String) :
    calculateCallCost duration callType =
      CallLogModel.calculateCost duration callType := by
  unfold calculateCallCost CallLogModel.calculateCost pricingFor CallLogModel.mPricingFor
  split_ifs <;> rfl

/-- The computed cost of a charged call is always positive (at least one
billed minute at 5 or 8 coins per minute). -/
theorem calculateCallCost_pos (d : ℕ) (ct : String) :
    0 < (calculateCallCost d ct).costInCoins := by
  unfold calculateCallCost pricingFor voicePricing videoPricing
  split_ifs <;> simp

/-- When the call was answered, the duration is positive and the balance
covers the computed cost, `settleCost` returns the calculator's triple
unclamped. -/
theorem settleCost_noclamp (c : CallRec) (acc : Accounts) (d : ℕ)
    (hans : c.status = .answered) (hd : 0 < d)
    (hle : (calculateCallCost d c.callType).costInCoins ≤ acc.coinBalance) :
    settleCost c acc d = calculateCallCost d c.callType := by
  unfold settleCost
  rw [if_pos ⟨hans, hd⟩, if_neg (not_lt.mpr hle)]

/-- When the computed cost exceeds the balance, `settleCost` clamps the
charge to the balance and halves it (floored) for the therapist. -/
theorem settleCost_clamp (c : CallRec) (acc : Accounts) (d : ℕ)
    (hans : c.status = .answered) (hd : 0 < d)
    (hover : acc.coinBalance < (calculateCallCost d c.callType).costInCoins) :
    settleCost c acc d =
      { durationMinutes := (calculateCallCost d c.callType).durationMinutes
        costInCoins := acc.coinBalance
        therapistEarningsCoins := acc.coinBalance / 2 } := by
  unfold settleCost
  rw [if_pos ⟨hans, hd⟩, if_pos hover]
  simp [Nat.min_eq_right (le_of_lt hover)]

/-- When the call was not answered or the duration is zero, the cost
triple is zero. -/
theorem settleCost_zero (c : CallRec) (acc : Accounts) (d : ℕ)
    (h : ¬(c.status = .answered ∧ 0 < d)) :
    settleCost c acc d =
      { durationMinutes := 0, costInCoins := 0, therapistEarningsCoins := 0 } := by
  unfold settleCost
  rw [if_neg h]

/-- Shape of `endCall` when the double-processing guard passes. -/
theorem endCall_eq (c : CallRec) (acc : Accounts) (endedBy : Role) (d now : ℕ)
    (h : alreadyProcessed c.status = false) :
    endCall c acc endedBy d now =
      ({ c with
          endTime := some now
          actualDuration := d
          durationMinutes := (settleCost c acc d).durationMinutes
          costInCoins := (settleCost c acc d).costInCoins
          therapistEarningsCoins := (settleCost c acc d).therapistEarningsCoins
          status := endedStatus endedBy },
        if 0 < (settleCost c acc d).costInCoins then
          { coinBalance := acc.coinBalance - (settleCost c acc d).costInCoins
            totalEarningsCoins :=
              acc.totalEarningsCoins + (settleCost c acc d).therapistEarningsCoins }
        else acc) := by
  unfold endCall
  rw [if_neg (by simp [h])]

/-- C1 (counterexample): the claim's settlement formula fails on an
answered call whose measured duration is 0 seconds: the code records
cost 0 and mutates no balance, while the claimed formula
`billedMinutes = max(1, ceil(d/60))` gives 1 minute and cost 5. -/
theorem c1_zero_duration_counterexample :
    sampleAnswered.status = .answered ∧
    (endCall sampleAnswered ⟨100, 0⟩ .user 0 2000).1.costInCoins = 0 ∧
    (calculateCallCost 0 "voice").costInCoins = 5 ∧
    (endCall sampleAnswered ⟨100, 0⟩ .user 0 2000).1.costInCoins ≠
      (calculateCallCost 0 sampleAnswered.callType).costInCoins := by
  decide

/-- C1 (amended): settlement of an ended session.  (a) If the session
never reached `answered` (and is not an already-processed terminal), the
recorded cost and earnings are zero and no balance moves.  (b) If the
session is `answered`, the duration `d` is positive, and the payer's
balance covers the computed cost, then
`billedMinutes = max(1, ceil(d/60))`, the recorded cost is
`billedMinutes` times the per-minute rate of the call type (5 voice,
8 video), the recorded earnings are the floor of `billedMinutes` times
the therapist rate (2.5 voice, 4 video), the payer's balance drops by
the cost and the therapist's earnings grow by the recorded earnings. -/
theorem c1_settlement_amended (c : CallRec) (acc : Accounts) (endedBy : Role)
    (d now : ℕ) :
    (c.status ≠ .answered → alreadyProcessed c.status = false →
      (endCall c acc endedBy d now).1.costInCoins = 0 ∧
      (endCall c acc endedBy d now).1.therapistEarningsCoins = 0 ∧
      (endCall c acc endedBy d now).2 = acc) ∧
    (c.status = .answered → 0 < d →
      (calculateCallCost d c.callType).costInCoins ≤ acc.coinBalance →
      (endCall c acc endedBy d now).1.durationMinutes = max 1 (ceilDiv60 d) ∧
      (endCall c acc endedBy d now).1.costInCoins =
        max 1 (ceilDiv60 d) * (pricingFor c.callType).costPerMinute ∧
      (endCall c acc endedBy d now).1.therapistEarningsCoins =
        max 1 (ceilDiv60 d) *
          (pricingFor c.callType).therapistEarningsPerMinuteHalfCoins / 2 ∧
      (endCall c acc endedBy d now).2.coinBalance =
        acc.coinBalance - (calculateCallCost d c.callType).costInCoins ∧
      (endCall c acc endedBy d now).2.totalEarningsCoins =
        acc.totalEarningsCoins +
          (calculateCallCost d c.callType).therapistEarningsCoins) := by
  constructor
  · intro hne hap
    have hz := settleCost_zero c acc d (fun hc => hne hc.1)
    rw [endCall_eq c acc endedBy d now hap, hz]
    simp
  · intro hans hd hle
    have hap : alreadyProcessed c.status = false := by rw [hans]; decide
    have hs := settleCost_noclamp c acc d hans hd hle
    have hpos := calculateCallCost_pos d c.callType
    rw [endCall_eq c acc endedBy d now hap, hs]
    rw [if_pos hpos]
    exact ⟨rfl, rfl, rfl, rfl, rfl⟩

/-- C1 (witness): the 90-second voice scenario — balance 100, answered,
caller ends after 90 s: 2 billed minutes, cost 10, earnings 5, balance
100 → 90, therapist earnings 0 → 5. -/
theorem c1_settlement_amended_witness :
    sampleAnswered.status = .answered ∧ 0 < 90 ∧
    (calculateCallCost 90 sampleAnswered.callType).costInCoins ≤
      (Accounts.mk 100 0).coinBalance ∧
    ((endCall sampleAnswered ⟨100, 0⟩ .user 90 2000).1.durationMinutes =
        max 1 (ceilDiv60 90) ∧
      (endCall sampleAnswered ⟨100, 0⟩ .user 90 2000).1.costInCoins =
        max 1 (ceilDiv60 90) * (pricingFor sampleAnswered.callType).costPerMinute ∧
      (endCall sampleAnswered ⟨100, 0⟩ .user 90 2000).1.therapistEarningsCoins =
        max 1 (ceilDiv60 90) *
          (pricingFor sampleAnswered.callType).therapistEarningsPerMinuteHalfCoins / 2 ∧
      (endCall sampleAnswered ⟨100, 0⟩ .user 90 2000).2.coinBalance =
        (Accounts.mk 100 0).coinBalance -
          (calculateCallCost 90 sampleAnswered.callType).costInCoins ∧
      (endCall sampleAnswered ⟨100, 0⟩ .user 90 2000).2.totalEarningsCoins =
        (Accounts.mk 100 0).totalEarningsCoins +
          (calculateCallCost 90 sampleAnswered.callType).therapistEarningsCoins) ∧
    (endCall sampleAnswered ⟨100, 0⟩ .user 90 2000).1.costInCoins = 10 ∧
    (endCall sampleAnswered ⟨100, 0⟩ .user 90 2000).2.coinBalance = 90 ∧
    (endCall sampleAnswered ⟨100, 0⟩ .user 90 2000).2.totalEarningsCoins = 5 :=
  ⟨by decide, by decide, by decide,
    (c1_settlement_amended sampleAnswered ⟨100, 0⟩ .user 90 2000).2
      (by decide) (by decide) (by decide),
    by decide, by decide, by decide⟩

/-- C3: balance clamping.  For an answered session with positive
duration whose computed cost exceeds the payer's balance, the recorded
charge equals the balance (so the charge never exceeds what the payer
has), earnings are recomputed as the floor of half the clamped charge,
the payer's balance ends at exactly 0 (never negative) and the therapist
is credited the recomputed earnings. -/
theorem c3_balance_clamp (c : CallRec) (acc : Accounts) (endedBy : Role)
    (d now : ℕ) (hans : c.status = .answered) (hd : 0 < d)
    (hover : acc.coinBalance < (calculateCallCost d c.callType).costInCoins) :
    (endCall c acc endedBy d now).1.costInCoins = acc.coinBalance ∧
    (endCall c acc endedBy d now).1.costInCoins ≤ acc.coinBalance ∧
    (endCall c acc endedBy d now).1.therapistEarningsCoins = acc.coinBalance / 2 ∧
    (endCall c acc endedBy d now).2.coinBalance = 0 ∧
    (endCall c acc endedBy d now).2.totalEarningsCoins =
      acc.totalEarningsCoins + acc.coinBalance / 2 := by
  have hap : alreadyProcessed c.status = false := by rw [hans]; decide
  have hs := settleCost_clamp c acc d hans hd hover
  rw [endCall_eq c acc endedBy d now hap, hs]
  by_cases hbal : 0 < acc.coinBalance
  · rw [if_pos hbal]
    exact ⟨rfl, le_refl _, rfl, by simp, rfl⟩
  · have hz : acc.coinBalance = 0 := by omega
    rw [if_neg (by simp [hz])]
    simp [hz]

/-- C3 (witness): balance 3, voice call of 90 s (computed cost 10):
charge clamps to 3, earnings floor(3·0.5) = 1, balance ends at 0. -/
theorem c3_balance_clamp_witness :
    sampleAnswered.status = .answered ∧ 0 < 90 ∧
    (Accounts.mk 3 0).coinBalance <
      (calculateCallCost 90 sampleAnswered.callType).costInCoins ∧
    ((endCall sampleAnswered ⟨3, 0⟩ .user 90 2000).1.costInCoins =
        (Accounts.mk 3 0).coinBalance ∧
      (endCall sampleAnswered ⟨3, 0⟩ .user 90 2000).1.costInCoins ≤
        (Accounts.mk 3 0).coinBalance ∧
      (endCall sampleAnswered ⟨3, 0⟩ .user 90 2000).1.therapistEarningsCoins =
        (Accounts.mk 3 0).coinBalance / 2 ∧
      (endCall sampleAnswered ⟨3, 0⟩ .user 90 2000).2.coinBalance = 0 ∧
      (endCall sampleAnswered ⟨3, 0⟩ .user 90 2000).2.totalEarningsCoins =
        (Accounts.mk 3 0).totalEarningsCoins + (Accounts.mk 3 0).coinBalance / 2) ∧
    (endCall sampleAnswered ⟨3, 0⟩ .user 90 2000).1.therapistEarningsCoins = 1 :=
  ⟨by decide, by decide, by decide,
    c3_balance_clamp sampleAnswered ⟨3, 0⟩ .user 90 2000
      (by decide) (by decide) (by decide),
    by decide⟩

/-- C10: zero-duration edge of `/end`.  An answered session ended with
measured duration 0 is marked ended with a zero cost triple and neither
balance is mutated; the one-minute billing floor only ever applies when
the cost calculator is invoked, which requires a positive duration. -/
theorem c10_zero_duration_end (c : CallRec) (acc : Accounts) (endedBy : Role)
    (now : ℕ) (hans : c.status = .answered) :
    (endCall c acc endedBy 0 now).1.status = endedStatus endedBy ∧
    (endCall c acc endedBy 0 now).1.durationMinutes = 0 ∧
    (endCall c acc endedBy 0 now).1.costInCoins = 0 ∧
    (endCall c acc endedBy 0 now).1.therapistEarningsCoins = 0 ∧
    (endCall c acc endedBy 0 now).2 = acc ∧
    (∀ d : ℕ, 0 < d → 1 ≤ (calculateCallCost d c.callType).durationMinutes) := by
  have hap : alreadyProcessed c.status = false := by rw [hans]; decide
  have hz := settleCost_zero c acc 0 (by simp)
  rw [endCall_eq c acc endedBy 0 now hap, hz]
  refine ⟨rfl, rfl, rfl, rfl, by simp, ?_⟩
  intro d _
  unfold calculateCallCost
  simp

/-- C10 (witness): the answered sample call ended at duration 0. -/
theorem c10_zero_duration_end_witness :
    sampleAnswered.status = .answered ∧
    ((endCall sampleAnswered ⟨100, 0⟩ .therapist 0 2000).1.status =
        endedStatus .therapist ∧
      (endCall sampleAnswered ⟨100, 0⟩ .therapist 0 2000).1.durationMinutes = 0 ∧
      (endCall sampleAnswered ⟨100, 0⟩ .therapist 0 2000).1.costInCoins = 0 ∧
      (endCall sampleAnswered ⟨100, 0⟩ .therapist 0 2000).1.therapistEarningsCoins = 0 ∧
      (endCall sampleAnswered ⟨100, 0⟩ .therapist 0 2000).2 = Accounts.mk 100 0 ∧
      (∀ d : ℕ, 0 < d →
        1 ≤ (calculateCallCost d sampleAnswered.callType).durationMinutes)) :=
  ⟨by decide, c10_zero_duration_end sampleAnswered ⟨100, 0⟩ .therapist 2000 (by decide)⟩

/-- C7: the answer guard.  An answer request succeeds only when it comes
from the call's therapist while the call is still `initiated` (ringing),
and then stores `answered`; any other therapist gets the Unauthorized
error; the call's own therapist answering a non-ringing call gets the
error carrying the current status. -/
theorem c7_answer_guard (c : CallRec) (tid : ℕ) (avail : Bool) (now : ℕ) :
    (∀ c', answerCall c tid avail now = .ok c' →
      tid = c.therapistId ∧ c.status = .initiated ∧
      c' = { c with status := .answered, actualStartTime := some now }) ∧
    (tid ≠ c.therapistId → answerCall c tid avail now = .error .unauthorized) ∧
    (tid = c.therapistId → c.status ≠ .initiated →
      answerCall c tid avail now = .error (.cannotAnswer c.status)) := by
  refine ⟨?_, ?_, ?_⟩
  · intro c' hok
    unfold answerCall at hok
    split_ifs at hok with h1 h2 h3
    · simp only [not_not] at h1
      simp only [not_not] at h2
      exact ⟨h1.symm, h2, (Except.ok.injEq _ _).mp hok |>.symm⟩
  · intro hne
    unfold answerCall
    rw [if_pos (fun h => hne h.symm)]
  · intro heq hne
    unfold answerCall
    rw [if_neg (by simp [heq]), if_pos hne]

/-- C7 (witness): therapist 3 answering therapist 2's ringing call gets
Unauthorized; therapist 2 answering the already-answered call gets the
cannot-answer error carrying `answered`; answering the ringing call
succeeds into `answered`. -/
theorem c7_answer_guard_witness :
    ((3:ℕ) ≠ sampleInitiated.therapistId ∧
      answerCall sampleInitiated 3 true 1500 = .error .unauthorized) ∧
    ((2:ℕ) = sampleAnswered.therapistId ∧ sampleAnswered.status ≠ .initiated ∧
      answerCall sampleAnswered 2 true 1500 =
        .error (.cannotAnswer sampleAnswered.status)) ∧
    (answerCall sampleInitiated 2 true 1500 = .ok sampleAnswered ∧
      (2 = sampleInitiated.therapistId ∧ sampleInitiated.status = .initiated ∧
        sampleAnswered =
          { sampleInitiated with status := .answered, actualStartTime := some 1500 })) :=
  ⟨⟨by decide, (c7_answer_guard sampleInitiated 3 true 1500).2.1 (by decide)⟩,
   ⟨by decide, by decide,
    (c7_answer_guard sampleAnswered 2 true 1500).2.2 (by decide) (by decide)⟩,
   ⟨rfl, (c7_answer_guard sampleInitiated 2 true 1500).1 sampleAnswered rfl⟩⟩

/-- C6 (counterexample): when the ring timeout fires on a still-ringing
call, the stored status is `missed` — the code has no distinct timed-out
state — and no settled flag is set: `billing.wasCharged` stays `false`,
contradicting the claimed `settled = true`. -/
theorem c6_timeout_counterexample :
    sampleInitiated.status = .initiated ∧
    (ringTimeoutFire sampleInitiated 31000).status = .missed ∧
    (ringTimeoutFire sampleInitiated 31000).wasCharged = false ∧
    (ringTimeoutFire sampleInitiated 31000).wasCharged ≠ true := by
  decide

/-- C6 (amended): the ring timeout is a one-shot timer at 30000 ms; if
the call is still `initiated` when it fires, the call is stored as
`missed` with `endTime` set, and for a call created by `/initiate` the
cost, earnings and `billing.wasCharged` remain 0/0/false (there is no
settled flag to set); if the call has left `initiated`, the timeout
writes nothing. -/
theorem c6_timeout_amended (c : CallRec) (u t : ℕ) (ct : String)
    (created now : ℕ) :
    ringTimeoutMs = 30000 ∧
    (c.status = .initiated →
      (ringTimeoutFire c now).status = .missed ∧
      (ringTimeoutFire c now).endTime = some now ∧
      (ringTimeoutFire c now).costInCoins = c.costInCoins ∧
      (ringTimeoutFire c now).therapistEarningsCoins = c.therapistEarningsCoins ∧
      (ringTimeoutFire c now).wasCharged = c.wasCharged) ∧
    (c.status ≠ .initiated → ringTimeoutFire c now = c) ∧
    ((ringTimeoutFire (initiateRecord u t ct created) now).status = .missed ∧
      (ringTimeoutFire (initiateRecord u t ct created) now).costInCoins = 0 ∧
      (ringTimeoutFire (initiateRecord u t ct created) now).therapistEarningsCoins = 0 ∧
      (ringTimeoutFire (initiateRecord u t ct created) now).wasCharged = false) := by
  refine ⟨rfl, ?_, ?_, ?_⟩
  · intro h
    unfold ringTimeoutFire
    rw [if_pos h]
    exact ⟨rfl, rfl, rfl, rfl, rfl⟩
  · intro h
    unfold ringTimeoutFire
    rw [if_neg h]
  · unfold ringTimeoutFire initiateRecord
    simp

/-- C6 (witness): the sample ringing call timed out at t = 31000 ms, and
the sample answered call is untouched by a late timer. -/
theorem c6_timeout_amended_witness :
    ringTimeoutMs = 30000 ∧
    (sampleInitiated.status = .initiated ∧
      ((ringTimeoutFire sampleInitiated 31000).status = .missed ∧
        (ringTimeoutFire sampleInitiated 31000).endTime = some 31000 ∧
        (ringTimeoutFire sampleInitiated 31000).costInCoins =
          sampleInitiated.costInCoins ∧
        (ringTimeoutFire sampleInitiated 31000).therapistEarningsCoins =
          sampleInitiated.therapistEarningsCoins ∧
        (ringTimeoutFire sampleInitiated 31000).wasCharged =
          sampleInitiated.wasCharged)) ∧
    (sampleAnswered.status ≠ .initiated ∧
      ringTimeoutFire sampleAnswered 31000 = sampleAnswered) :=
  ⟨rfl,
   ⟨by decide, ((c6_timeout_amended sampleInitiated 1 2 "voice" 1000 31000).2.1 (by decide))⟩,
   ⟨by decide, ((c6_timeout_amended sampleAnswered 1 2 "voice" 1000 31000).2.2.1 (by decide))⟩⟩

/-- C2 (counterexample): terminal states are not immutable — `/end` on a
`rejected` call overwrites the status to `ended_by_user` (the
double-processing guard only protects `ended_*` and
`cancelled_by_user`). -/
theorem c2_end_after_reject_counterexample :
    sampleRejected.status = .rejected ∧
    (endCall sampleRejected ⟨100, 0⟩ .user 0 2000).1.status = .ended_by_user ∧
    (endCall sampleRejected ⟨100, 0⟩ .user 0 2000).1.status ≠
      sampleRejected.status := by
  decide

/-- C2 (amended): answer, reject, cancel and the ring timeout never
change a terminal state; `/end` leaves `ended_by_user`,
`ended_by_therapist` and `cancelled_by_user` untouched (record and
balances), but transitions the remaining terminal states (`rejected`,
`missed`, `cancelled_by_therapist`) to ended — without any charge, since
those states are not `answered`. -/
theorem c2_terminal_immutability_amended (c : CallRec) (acc : Accounts)
    (tid uid : ℕ) (avail : Bool) (r : Role) (d now : ℕ)
    (hterm : TerminalStatus c.status) :
    storedAfterAnswer c tid avail now = c ∧
    storedAfterReject c tid now = c ∧
    storedAfterCancel c uid now = c ∧
    ringTimeoutFire c now = c ∧
    (alreadyProcessed c.status = true → endCall c acc r d now = (c, acc)) ∧
    ((c.status = .rejected ∨ c.status = .missed ∨
        c.status = .cancelled_by_therapist) →
      (endCall c acc r d now).1.status = endedStatus r ∧
      (endCall c acc r d now).1.costInCoins = 0 ∧
      (endCall c acc r d now).2 = acc) := by
  have hni : c.status ≠ .initiated := by
    rcases hterm with h | h | h | h | h | h <;> simp [h]
  have hna : c.status ≠ .answered := by
    rcases hterm with h | h | h | h | h | h <;> simp [h]
  refine ⟨?_, ?_, ?_, ?_, ?_, ?_⟩
  · unfold storedAfterAnswer answerCall
    split_ifs with h1 <;> rfl
  · unfold storedAfterReject rejectCall
    split_ifs with h1 <;> rfl
  · unfold storedAfterCancel cancelCall
    have hcond : (!(decide (c.status = .initiated) || decide (c.status = .answered))) = true := by
      simp [hni, hna]
    split_ifs with h1
    · rfl
    · rfl
  · unfold ringTimeoutFire
    rw [if_neg hni]
  · intro hap
    unfold endCall
    rw [if_pos hap]
  · intro hne
    have hap : alreadyProcessed c.status = false := by
      rcases hne with h | h | h <;> rw [h] <;> decide
    have hz := settleCost_zero c acc d (fun hc => hna hc.1)
    rw [endCall_eq c acc r d now hap, hz]
    simp

/-- C2 (witness): the sample rejected call is untouched by answer,
reject, cancel and the timeout, and an ended call is fully protected by
the double-processing guard. -/
theorem c2_terminal_immutability_amended_witness :
    TerminalStatus sampleRejected.status ∧
    (storedAfterAnswer sampleRejected 2 true 1500 = sampleRejected ∧
      storedAfterReject sampleRejected 2 1500 = sampleRejected ∧
      storedAfterCancel sampleRejected 1 1500 = sampleRejected ∧
      ringTimeoutFire sampleRejected 31000 = sampleRejected ∧
      (alreadyProcessed sampleRejected.status = true →
        endCall sampleRejected ⟨100, 0⟩ .user 0 2000 = (sampleRejected, ⟨100, 0⟩)) ∧
      ((sampleRejected.status = .rejected ∨ sampleRejected.status = .missed ∨
          sampleRejected.status = .cancelled_by_therapist) →
        (endCall sampleRejected ⟨100, 0⟩ .user 0 2000).1.status = endedStatus .user ∧
        (endCall sampleRejected ⟨100, 0⟩ .user 0 2000).1.costInCoins = 0 ∧
        (endCall sampleRejected ⟨100, 0⟩ .user 0 2000).2 = Accounts.mk 100 0)) :=
  ⟨Or.inr (Or.inr (Or.inl rfl)),
   c2_terminal_immutability_amended sampleRejected ⟨100, 0⟩ 2 1 true .user 0 2000
     (Or.inr (Or.inr (Or.inl rfl)))⟩

/-- Deleting a key removes its binding. -/
theorem lookup_mapDelete_self {β : Type} (m : List (String × β)) (u : String) :
    (mapDelete m u).lookup u = none := by
  induction m with
  | nil => rfl
  | cons p rest ih =>
      unfold mapDelete at ih ⊢
      cases hb : (p.1 == u) with
      | false =>
          have hub : (u == p.1) = false := by
            simp only [beq_eq_false_iff_ne] at hb ⊢
            exact fun he => hb he.symm
          simp [List.filter_cons, hb, List.lookup, hub, ih]
      | true => simp [List.filter_cons, hb, ih]

/-- Deleting a key leaves every other binding in place. -/
theorem lookup_mapDelete_ne {β : Type} (m : List (String × β)) (u k : String)
    (hk : k ≠ u) : (mapDelete m u).lookup k = m.lookup k := by
  induction m with
  | nil => rfl
  | cons p rest ih =>
      unfold mapDelete at ih ⊢
      cases hb : (p.1 == u) with
      | false =>
          cases hkp : (k == p.1) with
          | false => simp [List.filter_cons, hb, List.lookup, hkp, ih]
          | true => simp [List.filter_cons, hb, List.lookup, hkp]
      | true =>
          have hpu : p.1 = u := by simpa using hb
          have hkp : (k == p.1) = false := by
            simp only [beq_eq_false_iff_ne, hpu]
            exact hk
          simp [List.filter_cons, hb, List.lookup, hkp, ih]

/-- C8 (counterexample): the disconnect handler does not compare
connection handles.  User `u` registers on socket `s1`, then re-registers
on `s2` (superseding `s1`); the stale disconnect of `s1` (whose
`socket.userId` is still `u`) evicts the newer registration even though
the stored handle `s2` differs from the disconnecting handle `s1`. -/
theorem c8_deregister_counterexample :
    (userConnect (userConnect [] "u" "s1") "u" "s2").lookup "u" = some "s2" ∧
    ("s2" : String) ≠ "s1" ∧
    disconnectUsers (userConnect (userConnect [] "u" "s1") "u" "s2")
      (some "user") (some "u") = [] ∧
    (disconnectUsers (userConnect (userConnect [] "u" "s1") "u" "s2")
      (some "user") (some "u")).lookup "u" = none := by
  decide

/-- C8 (amended): the disconnect handler removes the presence entry for
the socket's remembered identity unconditionally — regardless of which
connection handle is currently stored — and leaves other identities'
entries untouched.  A stale disconnect from a superseded connection
therefore does evict a newer registration of the same identity. -/
theorem c8_deregister_amended (m : List (String × String)) (u k : String)
    (hk : k ≠ u) :
    (disconnectUsers m (some "user") (some u)).lookup u = none ∧
    (disconnectUsers m (some "user") (some u)).lookup k = m.lookup k := by
  constructor
  · exact lookup_mapDelete_self m u
  · exact lookup_mapDelete_ne m u k hk

/-- C8 (witness): the amended behavior at a concrete presence map. -/
theorem c8_deregister_amended_witness :
    ("v" : String) ≠ "u" ∧
    ((disconnectUsers [("u", "s2"), ("v", "s3")] (some "user") (some "u")).lookup "u" =
        none ∧
      (disconnectUsers [("u", "s2"), ("v", "s3")] (some "user") (some "u")).lookup "v" =
        [("u", "s2"), ("v", "s3")].lookup "v") :=
  ⟨by decide, c8_deregister_amended [("u", "s2"), ("v", "s3")] "u" "v" (by decide)⟩

/-- C5 (counterexample): relay is not confined to call participants.
In `sigSample`, `call1` is a session between `a` and `b`; identity `x`
(socket `s3`) is not a participant, yet its `webrtc-offer` naming
`call1` and target `b` is delivered to `b`'s socket `s2`. -/
theorem c5_relay_counterexample :
    isParticipant sigSample "call1" "x" = false ∧
    (sigSample.activeCalls.lookup "call1").isSome = true ∧
    webrtcRelay sigSample "s3" "call1" "sdp-offer" "b" =
      some ("s2",
        { callID := "call1", payload := "sdp-offer", senderID := some "x" }) := by
  decide

/-- C5 (amended): delivery of a relayed signaling message is keyed
solely by the target identity's presence registration: if the message is
delivered it goes to the socket currently registered for
`targetUserID`; if the target is not registered nothing is delivered;
and the delivery target is independent of the `callID` named in the
message (no membership check exists). -/
theorem c5_relay_amended (st : SigState)
    (senderSocketId callID callID2 payload targetUserID : String) :
    (∀ sock msg,
      webrtcRelay st senderSocketId callID payload targetUserID = some (sock, msg) →
      st.connectedUsers.lookup targetUserID = some sock) ∧
    (st.connectedUsers.lookup targetUserID = none →
      webrtcRelay st senderSocketId callID payload targetUserID = none) ∧
    (webrtcRelay st senderSocketId callID payload targetUserID).map Prod.fst =
      (webrtcRelay st senderSocketId callID2 payload targetUserID).map Prod.fst := by
  unfold webrtcRelay
  cases h : st.connectedUsers.lookup targetUserID with
  | none => exact ⟨fun sock msg hmsg => by simp at hmsg, fun _ => rfl, rfl⟩
  | some s =>
      refine ⟨fun sock msg hmsg => ?_,
        fun hn => Option.noConfusion hn, rfl⟩
      simp only [Option.some.injEq, Prod.mk.injEq] at hmsg
      rw [hmsg.1]

/-- C5 (witness): in `sigSample`, a message to the unregistered identity
`zz` is dropped, and a delivered message goes to the target's registered
socket. -/
theorem c5_relay_amended_witness :
    (sigSample.connectedUsers.lookup "zz" = none ∧
      webrtcRelay sigSample "s1" "call1" "p" "zz" = none) ∧
    (webrtcRelay sigSample "s1" "call1" "p" "b" =
        some ("s2", { callID := "call1", payload := "p", senderID := some "a" }) ∧
      sigSample.connectedUsers.lookup "b" = some "s2") :=
  ⟨⟨by decide, (c5_relay_amended sigSample "s1" "call1" "call1" "p" "zz").2.1 (by decide)⟩,
   ⟨by decide,
    (c5_relay_amended sigSample "s1" "call1" "call1" "p" "b").1 "s2"
      { callID := "call1", payload := "p", senderID := some "a" } (by decide)⟩⟩

/-- The shape every non-initiate store update shares: participant ids
are preserved and a session active after the update was active before
(no update resurrects a terminated session). -/
def PreservesIds (f : Sess → Sess) : Prop :=
  ∀ s : Sess, (f s).userId = s.userId ∧ (f s).therapistId = s.therapistId ∧
    (isActiveStatus (f s).status = true → isActiveStatus s.status = true)

theorem answerSess_shape (tid : ℕ) (avail : Bool) : PreservesIds (answerSess tid avail) := by
  intro s
  unfold answerSess
  split_ifs with h
  · exact ⟨rfl, rfl, fun _ => by rw [h.2.1]; rfl⟩
  · exact ⟨rfl, rfl, fun hh => hh⟩

theorem rejectSess_shape (tid : ℕ) : PreservesIds (rejectSess tid) := by
  intro s
  unfold rejectSess
  split_ifs with h
  · exact ⟨rfl, rfl, fun hh => nomatch hh⟩
  · exact ⟨rfl, rfl, fun hh => hh⟩

theorem cancelSess_shape (uid : ℕ) : PreservesIds (cancelSess uid) := by
  intro s
  unfold cancelSess
  split_ifs with h
  · exact ⟨rfl, rfl, fun hh => nomatch hh⟩
  · exact ⟨rfl, rfl, fun hh => hh⟩

theorem endSess_shape (r : Role) (rid : ℕ) : PreservesIds (endSess r rid) := by
  intro s
  unfold endSess
  split_ifs with h1 h2
  · exact ⟨rfl, rfl, fun hh => hh⟩
  · cases r with
    | user => exact ⟨rfl, rfl, fun hh => nomatch hh⟩
    | therapist => exact ⟨rfl, rfl, fun hh => nomatch hh⟩
  · exact ⟨rfl, rfl, fun hh => hh⟩

theorem timeoutSess_shape : PreservesIds timeoutSess := by
  intro s
  unfold timeoutSess
  split_ifs with h
  · exact ⟨rfl, rfl, fun hh => nomatch hh⟩
  · exact ⟨rfl, rfl, fun hh => hh⟩

theorem activeForUser_of (f : Sess → Sess) (hf : PreservesIds f) (x : ℕ)
    (s : Sess) (hp : activeForUser x (f s) = true) : activeForUser x s = true := by
  unfold activeForUser at hp ⊢
  rw [Bool.and_eq_true] at hp ⊢
  obtain ⟨h1, h2⟩ := hp
  refine ⟨?_, (hf s).2.2 h2⟩
  simp only [decide_eq_true_eq] at h1 ⊢
  rw [← (hf s).1]
  exact h1

theorem activeForTherapist_of (f : Sess → Sess) (hf : PreservesIds f) (x : ℕ)
    (s : Sess) (hp : activeForTherapist x (f s) = true) :
    activeForTherapist x s = true := by
  unfold activeForTherapist at hp ⊢
  rw [Bool.and_eq_true] at hp ⊢
  obtain ⟨h1, h2⟩ := hp
  refine ⟨?_, (hf s).2.2 h2⟩
  simp only [decide_eq_true_eq] at h1 ⊢
  rw [← (hf s).2.1]
  exact h1

theorem countP_update_le (st : Store) (id : ℕ) (f : Sess → Sess) (p : Sess → Bool)
    (hf : ∀ s, p (f s) = true → p s = true) :
    (updateSess st id f).countP p ≤ st.countP p := by
  unfold updateSess
  rw [List.countP_map]
  apply List.countP_mono_left
  intro s _ h
  simp only [Function.comp_apply] at h
  by_cases hid : s.id = id
  · rw [if_pos hid] at h
    exact hf s h
  · rw [if_neg hid] at h
    exact h

theorem countP_zero_of_any_false {p : Sess → Bool} {st : Store}
    (h : st.any p = false) : st.countP p = 0 := by
  rw [List.countP_eq_zero]
  intro a ha
  rw [List.any_eq_false] at h
  exact h a ha

theorem singleActive_initiate (st : Store) (id u t : ℕ) (h : SingleActive st) :
    SingleActive (((initiate st id u t).toOption).getD st) := by
  unfold initiate
  by_cases h1 : hasActiveUser st u = true
  · rw [if_pos h1]; exact h
  rw [if_neg h1]
  by_cases h2 : hasActiveTherapist st t = true
  · rw [if_pos h2]; exact h
  rw [if_neg h2]
  show SingleActive ({ id := id, userId := u, therapistId := t, status := .initiated } :: st)
  intro x
  constructor
  · rw [List.countP_cons]
    by_cases hx : x = u
    · subst hx
      have h0 : st.countP (activeForUser x) = 0 :=
        countP_zero_of_any_false (by simpa [hasActiveUser] using h1)
      have hnew : activeForUser x
          { id := id, userId := x, therapistId := t, status := .initiated } = true := by
        simp [activeForUser, isActiveStatus]
      simp [h0, hnew]
    · have hnew : activeForUser x
          { id := id, userId := u, therapistId := t, status := .initiated } = false := by
        simp [activeForUser, Ne.symm hx]
      simp [hnew]
      exact le_trans (Nat.le_refl _) (h x).1
  · rw [List.countP_cons]
    by_cases hx : x = t
    · subst hx
      have h0 : st.countP (activeForTherapist x) = 0 :=
        countP_zero_of_any_false (by simpa [hasActiveTherapist] using h2)
      have hnew : activeForTherapist x
          { id := id, userId := u, therapistId := x, status := .initiated } = true := by
        simp [activeForTherapist, isActiveStatus]
      simp [h0, hnew]
    · have hnew : activeForTherapist x
          { id := id, userId := u, therapistId := t, status := .initiated } = false := by
        simp [activeForTherapist, Ne.symm hx]
      simp [hnew]
      exact le_trans (Nat.le_refl _) (h x).2

theorem stepOp_preserves (st : Store) (op : CallOp) (h : SingleActive st) :
    SingleActive (stepOp st op) := by
  cases op with
  | opInitiate id u t => exact singleActive_initiate st id u t h
  | opAnswer id tid avail =>
      intro x
      exact ⟨le_trans (countP_update_le st id _ _
          (fun s hp => activeForUser_of _ (answerSess_shape tid avail) x s hp)) (h x).1,
        le_trans (countP_update_le st id _ _
          (fun s hp => activeForTherapist_of _ (answerSess_shape tid avail) x s hp)) (h x).2⟩
  | opReject id tid =>
      intro x
      exact ⟨le_trans (countP_update_le st id _ _
          (fun s hp => activeForUser_of _ (rejectSess_shape tid) x s hp)) (h x).1,
        le_trans (countP_update_le st id _ _
          (fun s hp => activeForTherapist_of _ (rejectSess_shape tid) x s hp)) (h x).2⟩
  | opCancel id uid =>
      intro x
      exact ⟨le_trans (countP_update_le st id _ _
          (fun s hp => activeForUser_of _ (cancelSess_shape uid) x s hp)) (h x).1,
        le_trans (countP_update_le st id _ _
          (fun s hp => activeForTherapist_of _ (cancelSess_shape uid) x s hp)) (h x).2⟩
  | opEnd id r rid =>
      intro x
      exact ⟨le_trans (countP_update_le st id _ _
          (fun s hp => activeForUser_of _ (endSess_shape r rid) x s hp)) (h x).1,
        le_trans (countP_update_le st id _ _
          (fun s hp => activeForTherapist_of _ (endSess_shape r rid) x s hp)) (h x).2⟩
  | opTimeout id =>
      intro x
      exact ⟨le_trans (countP_update_le st id _ _
          (fun s hp => activeForUser_of _ timeoutSess_shape x s hp)) (h x).1,
        le_trans (countP_update_le st id _ _
          (fun s hp => activeForTherapist_of _ timeoutSess_shape x s hp)) (h x).2⟩

theorem singleActive_foldl (ops : List CallOp) :
    ∀ st : Store, SingleActive st → SingleActive (ops.foldl stepOp st) := by
  induction ops with
  | nil => exact fun st h => h
  | cons op rest ih => exact fun st h => ih _ (stepOp_preserves st op h)

/-- C4: single active session per identity.  (1) Every store reachable
by a sequence of lifecycle events from the empty store has at most one
active (`initiated`/`answered`) session per user identity and per
therapist identity.  (2) `initiate` is rejected with a busy error
whenever the caller or the callee currently has an active session. -/
theorem c4_single_active :
    (∀ ops : List CallOp, SingleActive (runOps ops)) ∧
    (∀ (st : Store) (id u t : ℕ),
      hasActiveUser st u = true ∨ hasActiveTherapist st t = true →
      ∃ e, initiate st id u t = .error e) := by
  constructor
  · intro ops
    apply singleActive_foldl
    intro x
    constructor <;> simp [List.countP_nil]
  · intro st id u t h
    unfold initiate
    by_cases h1 : hasActiveUser st u = true
    · exact ⟨.alreadyActive, by rw [if_pos h1]⟩
    · rcases h with h | h
      · exact absurd h h1
      · exact ⟨.therapistBusy, by rw [if_neg h1, if_pos h]⟩

/-- C4 (witness): a concrete trace (initiate, answer, a second initiate
by the same user that is refused, end) keeps the invariant, and
`initiate` on a store with an active session errors for a busy caller
and for a busy callee. -/
theorem c4_single_active_witness :
    SingleActive (runOps
      [.opInitiate 1 10 20, .opAnswer 1 20 true, .opInitiate 2 10 21,
        .opEnd 1 .user 10]) ∧
    (hasActiveUser demoStore 10 = true ∨ hasActiveTherapist demoStore 21 = true) ∧
    (∃ e, initiate demoStore 5 10 21 = .error e) ∧
    (hasActiveUser demoStore 11 = true ∨ hasActiveTherapist demoStore 20 = true) ∧
    (∃ e, initiate demoStore 6 11 20 = .error e) :=
  ⟨c4_single_active.1
      [.opInitiate 1 10 20, .opAnswer 1 20 true, .opInitiate 2 10 21,
        .opEnd 1 .user 10],
   Or.inl (by decide),
   c4_single_active.2 demoStore 5 10 21 (Or.inl (by decide)),
   Or.inr (by decide),
   c4_single_active.2 demoStore 6 11 20 (Or.inr (by decide))⟩

end TherapistConnect
